import Mathlib

/-!
Shallow embedding of the `fancy-duration` crate's core engine (`src/lib.rs`):
the `DurationBreakdown` decomposition/recomposition/filter/truncate engine and
the `FancyDuration` text codec (`format_internal` and `parse_to_ns`).

Machine integers (`u64`) are modelled as `Nat`; wherever the Rust code performs
`u64` arithmetic that can wrap around, the result is reduced modulo `2^64`
(consecutive wrapping additions and multiplications compose into a single final
reduction, which is how the reductions are written below).  Fallible code
(`Result<_, anyhow::Error>`) is modelled with `Option`, `none` standing for the
error case.
-/

/-- `2^64`, the modulus of Rust's `u64`. -/
def U64 : Nat := 18446744073709551616

/-! ### Unit constants (`lib.rs` lines 253-258) -/

def MINUTE : Nat := 60

def HOUR : Nat := 60 * MINUTE

def DAY : Nat := 24 * HOUR

def WEEK : Nat := 7 * DAY

def MONTH : Nat := 30 * DAY

def YEAR : Nat := 365 * DAY

/-! ### The breakdown (`DurationBreakdown`, `lib.rs` lines 239-377) -/

/-- `DurationBreakdown` (`lib.rs` lines 239-251): ten `u64` unit counts. -/
@[ext]
structure DurationBreakdown where
  years : Nat
  months : Nat
  weeks : Nat
  days : Nat
  hours : Nat
  minutes : Nat
  seconds : Nat
  milliseconds : Nat
  microseconds : Nat
  nanoseconds : Nat
deriving DecidableEq, Repr

/-- `DurationBreakdown::new` (`lib.rs` lines 261-292).  The shadowed `let`
bindings mirror the Rust code's in-place mutation of `s` and `ns`; `1e6 as u64`
and `1e3 as u64` are the exact constants `1000000` and `1000`.  No step can
overflow or underflow `u64`, so no modular reduction is needed. -/
def DurationBreakdown.new (s ns : Nat) : DurationBreakdown :=
  let years := s / YEAR
  let s := s - years * YEAR
  let months := s / MONTH
  let s := s - months * MONTH
  let weeks := s / WEEK
  let s := s - weeks * WEEK
  let days := s / DAY
  let s := s - days * DAY
  let hours := s / HOUR
  let s := s - hours * HOUR
  let minutes := s / MINUTE
  let s := s - minutes * MINUTE
  let ms := ns / 1000000
  let ns := ns - ms * 1000000
  let us := ns / 1000
  let ns := ns - us * 1000
  ⟨years, months, weeks, days, hours, minutes, s, ms, us, ns⟩

/-- `DurationBreakdown::as_times` (`lib.rs` lines 362-376): linear
recomposition of the two channels; the sums are `u64` additions, hence the
reduction modulo `2^64`. -/
def DurationBreakdown.as_times (b : DurationBreakdown) : Nat × Nat :=
  ((b.years * YEAR + b.months * MONTH + b.weeks * WEEK + b.days * DAY
      + b.hours * HOUR + b.minutes * MINUTE + b.seconds) % U64,
   (b.milliseconds * 1000000 + b.microseconds * 1000 + b.nanoseconds) % U64)

/-- The ten fields in the order the `truncate` loop (`lib.rs` lines 298-309)
visits them: most significant (years) to least significant (nanoseconds). -/
def DurationBreakdown.fieldList (b : DurationBreakdown) : List Nat :=
  [b.years, b.months, b.weeks, b.days, b.hours, b.minutes, b.seconds,
   b.milliseconds, b.microseconds, b.nanoseconds]

/-- Rebuild a breakdown from the list of its ten fields (inverse of
`fieldList` on lists of length 10). -/
def ofFieldList (l : List Nat) : DurationBreakdown :=
  ⟨l.getD 0 0, l.getD 1 0, l.getD 2 0, l.getD 3 0, l.getD 4 0,
   l.getD 5 0, l.getD 6 0, l.getD 7 0, l.getD 8 0, l.getD 9 0⟩

/-- The loop body of `DurationBreakdown::truncate` (`lib.rs` lines 294-324),
expressed as a recursion over the field list.  For each field: if the limit
has started (or this field is nonzero), mark it started; when the remaining
`limit` is `0` the field is zeroed, otherwise it is kept and the limit is
decremented. -/
def truncList : Nat → Bool → List Nat → List Nat
  | _, _, [] => []
  | limit, started, v :: rest =>
    if started = true ∨ 0 < v then
      (if limit = 0 then 0 else v)
        :: truncList (if limit = 0 then limit else limit - 1) true rest
    else
      v :: truncList limit started rest

/-- `DurationBreakdown::truncate` (`lib.rs` lines 294-324): run the loop over
the ten fields, most significant first, with `limit_started` initially
`false`. -/
def DurationBreakdown.truncate (b : DurationBreakdown) (limit : Nat) : DurationBreakdown :=
  ofFieldList (truncList limit false b.fieldList)

/-- `DurationPart` (`lib.rs` lines 225-237). -/
inductive DurationPart where
  | Years
  | Months
  | Weeks
  | Days
  | Hours
  | Minutes
  | Seconds
  | Milliseconds
  | Microseconds
  | Nanoseconds
deriving DecidableEq, Repr

/-- The `all` list inside `DurationBreakdown::filter` (`lib.rs` lines 329-340). -/
def allParts : List DurationPart :=
  [.Years, .Months, .Weeks, .Days, .Hours, .Minutes, .Seconds,
   .Milliseconds, .Microseconds, .Nanoseconds]

/-- The `match` inside `DurationBreakdown::filter`'s loop (`lib.rs` lines
344-355): zero the field named by `p`. -/
def zeroPart (b : DurationBreakdown) (p : DurationPart) : DurationBreakdown :=
  match p with
  | .Years => { b with years := 0 }
  | .Months => { b with months := 0 }
  | .Weeks => { b with weeks := 0 }
  | .Days => { b with days := 0 }
  | .Hours => { b with hours := 0 }
  | .Minutes => { b with minutes := 0 }
  | .Seconds => { b with seconds := 0 }
  | .Milliseconds => { b with milliseconds := 0 }
  | .Microseconds => { b with microseconds := 0 }
  | .Nanoseconds => { b with nanoseconds := 0 }

/-- `DurationBreakdown::filter` (`lib.rs` lines 326-360): for every part, if it
is not contained in the filter list, zero the corresponding field
(`filter.contains(part)` is membership under `PartialEq`). -/
def DurationBreakdown.filter (b : DurationBreakdown) (f : List DurationPart) : DurationBreakdown :=
  allParts.foldl (fun obj part => if part ∈ f then obj else zeroPart obj part) b

/-! ### The formatter (`FancyDuration::format_internal`, `lib.rs` lines 494-552) -/

/-- The token string built by the ten `if breakdown.<field> > 0` appends in
`format_internal` (`lib.rs` lines 503-545).  `spad` (`" "` when padding,
`""` otherwise) is inlined at each use site. -/
def formatBody (b : DurationBreakdown) (pad : Bool) : String :=
  (if b.years > 0 then toString b.years ++ "y" ++ (if pad then " " else "") else "")
  ++ (if b.months > 0 then toString b.months ++ "m" ++ (if pad then " " else "") else "")
  ++ (if b.weeks > 0 then toString b.weeks ++ "w" ++ (if pad then " " else "") else "")
  ++ (if b.days > 0 then toString b.days ++ "d" ++ (if pad then " " else "") else "")
  ++ (if b.hours > 0 then toString b.hours ++ "h" ++ (if pad then " " else "") else "")
  ++ (if b.minutes > 0 then toString b.minutes ++ "m" ++ (if pad then " " else "") else "")
  ++ (if b.seconds > 0 then toString b.seconds ++ "s" ++ (if pad then " " else "") else "")
  ++ (if b.milliseconds > 0 then toString b.milliseconds ++ "ms" ++ (if pad then " " else "") else "")
  ++ (if b.microseconds > 0 then toString b.microseconds ++ "us" ++ (if pad then " " else "") else "")
  ++ (if b.nanoseconds > 0 then toString b.nanoseconds ++ "ns" ++ (if pad then " " else "") else "")

/-- Rust's `String::truncate(new_len)`: keep the first `new_len` characters; a
`new_len` past the end leaves the string unchanged. -/
def strTruncate (s : String) (n : Nat) : String :=
  ⟨s.data.take n⟩

/-- `FancyDuration::format_internal` (`lib.rs` lines 494-552), at the level of
the `(seconds, subsecond nanoseconds)` pair returned by `as_times` (for
`std::time::Duration` that pair is exactly `(as_secs, subsec_nanos)`).  If
both channels are zero the literal `"0"` is returned; otherwise the value is
decomposed, the nonzero fields are emitted in precedence order, and, in the
padded style, the final character (the trailing separator) is removed.  The
source computes the new length as `s.len() - 1` in `usize`; `Nat` subtraction
agrees with it whenever the body is nonempty, which holds on every input that
reaches this line (see the claim-C9 theorem below). -/
def FancyDuration.format_internal (s ns : Nat) (pad : Bool) : String :=
  if s = 0 ∧ ns = 0 then "0"
  else
    let body := formatBody (DurationBreakdown.new s ns) pad
    if pad then strTruncate body (body.length - 1) else body

/-! ### The tokenizer (`FANCY_FORMAT`, `lib.rs` lines 67-69)

The regex `([0-9]+)([a-zA-Z]{1,2})\s*` is scanned with `captures_iter`:
successive non-overlapping leftmost matches, each capturing a maximal digit
run followed greedily by one or two ASCII letters.  The trailing `\s*` only
consumes whitespace, which can never begin a later match, so it does not
affect the captured token list and is not modelled.  The scan below tries to
match at the current position; on failure it advances one character, exactly
like the regex engine's search loop.  The fuel argument (initialised to
`length + 1`, an upper bound on the number of search steps, each of which
consumes at least one character) only makes the recursion structural; it is
never exhausted. -/

def scanAux : Nat → List Char → List (List Char × List Char)
  | 0, _ => []
  | _ + 1, [] => []
  | fuel + 1, c :: cs =>
    if c.isDigit then
      let ds := (c :: cs).takeWhile Char.isDigit
      match (c :: cs).dropWhile Char.isDigit with
      | [] => []
      | a :: as =>
        if a.isAlpha then
          match as with
          | [] => [(ds, [a])]
          | b :: bs =>
            if b.isAlpha then (ds, [a, b]) :: scanAux fuel bs
            else (ds, [a]) :: scanAux fuel as
        else scanAux fuel cs
    else scanAux fuel cs

/-- All `(digits, suffix)` captures of `FANCY_FORMAT` in the input, in order of
appearance (the `list` built in `parse_to_ns`, `lib.rs` lines 562-566). -/
def scanTokens (l : List Char) : List (List Char × List Char) :=
  scanAux (l.length + 1) l

/-! ### The parser (`FancyDuration::parse_to_ns`, `lib.rs` lines 557-620) -/

/-- Numeric value of a digit run (what `str::parse::<u64>` computes before the
range check). -/
def digitsVal (l : List Char) : Nat :=
  l.foldl (fun acc c => acc * 10 + (c.toNat - 48)) 0

/-- `value.parse::<u64>()` on a capture of `([0-9]+)`: the string is a
nonempty run of ASCII digits, so parsing fails exactly when the value
overflows `u64`. -/
def parseU64 (l : List Char) : Option Nat :=
  if digitsVal l < U64 then some (digitsVal l) else none

/-- One arm of the `match *suffix` in `parse_to_ns` (`lib.rs` lines 569-616),
acting on the state `(seconds, subseconds, past_minutes)`.  Unrecognized
suffixes fall through to `_ => {}`: the digits are never parsed and the state
is unchanged.  Accumulating additions and multiplications are `u64`
operations, reduced modulo `2^64`. -/
def applyToken (st : Nat × Nat × Bool) (tok : List Char × List Char) : Option (Nat × Nat × Bool) :=
  if tok.2 = ['n', 's'] then
    (parseU64 tok.1).map fun result => (st.1, (st.2.1 + result) % U64, st.2.2)
  else if tok.2 = ['m', 's'] then
    (parseU64 tok.1).map fun result => (st.1, (st.2.1 + result * 1000000) % U64, st.2.2)
  else if tok.2 = ['u', 's'] then
    (parseU64 tok.1).map fun result => (st.1, (st.2.1 + result * 1000) % U64, st.2.2)
  else if tok.2 = ['s'] then
    (parseU64 tok.1).map fun result => ((st.1 + result) % U64, st.2.1, st.2.2)
  else if tok.2 = ['m'] then
    (parseU64 tok.1).map fun result =>
      if st.2.2 then ((st.1 + result * 60 * 60 * 24 * 30) % U64, st.2.1, st.2.2)
      else ((st.1 + result * 60) % U64, st.2.1, true)
  else if tok.2 = ['h'] then
    (parseU64 tok.1).map fun result => ((st.1 + result * 60 * 60) % U64, st.2.1, true)
  else if tok.2 = ['d'] then
    (parseU64 tok.1).map fun result => ((st.1 + result * 60 * 60 * 24) % U64, st.2.1, true)
  else if tok.2 = ['w'] then
    (parseU64 tok.1).map fun result => ((st.1 + result * 60 * 60 * 24 * 7) % U64, st.2.1, true)
  else if tok.2 = ['y'] then
    (parseU64 tok.1).map fun result => ((st.1 + result * 12 * 30 * 60 * 60 * 24) % U64, st.2.1, true)
  else
    some st

/-- The `for (value, suffix) in list.iter().rev()` loop of `parse_to_ns`: the
`?` operator aborts the whole loop on the first numeric-parse failure. -/
def runTokens : (Nat × Nat × Bool) → List (List Char × List Char) → Option (Nat × Nat × Bool)
  | st, [] => some st
  | st, t :: ts =>
    match applyToken st t with
    | none => none
    | some st2 => runTokens st2 ts

/-- `FancyDuration::parse_to_ns` (`lib.rs` lines 557-620): tokenize, process
the tokens in reverse order of appearance starting from
`(seconds, subseconds, past_minutes) = (0, 0, false)`, and return
`(seconds, subseconds)`. -/
def FancyDuration.parse_to_ns (s : String) : Option (Nat × Nat) :=
  (runTokens (0, 0, false) (scanTokens s.data).reverse).map fun st => (st.1, st.2.1)

/-- `FancyDuration::truncate` (`lib.rs` lines 466-474) at the level of the
`(seconds, nanoseconds)` pair: decompose, truncate the breakdown, recompose. -/
def FancyDuration.truncatePair (p : Nat × Nat) (limit : Nat) : Nat × Nat :=
  ((DurationBreakdown.new p.1 p.2).truncate limit).as_times

/-- `FancyDuration::filter` (`lib.rs` lines 451-459) at the level of the
`(seconds, nanoseconds)` pair: decompose, filter the breakdown, recompose. -/
def FancyDuration.filterPair (p : Nat × Nat) (f : List DurationPart) : Nat × Nat :=
  ((DurationBreakdown.new p.1 p.2).filter f).as_times

/-- The nine suffixes the `match` in `parse_to_ns` recognizes; every other
suffix reaches the `_ => {}` arm. -/
def recognizedSuffix (sfx : List Char) : Prop :=
  sfx = ['n', 's'] ∨ sfx = ['m', 's'] ∨ sfx = ['u', 's'] ∨ sfx = ['s'] ∨ sfx = ['m']
    ∨ sfx = ['h'] ∨ sfx = ['d'] ∨ sfx = ['w'] ∨ sfx = ['y']

instance (sfx : List Char) : Decidable (recognizedSuffix sfx) := by
  unfold recognizedSuffix
  infer_instance

/-- Index of the first nonzero entry of a field list (the position at which
`truncate`'s `limit_started` flag flips); the list's length if all entries are
zero. -/
def firstNonzero : List Nat → Nat
  | [] => 0
  | v :: rest => if 0 < v then 0 else firstNonzero rest + 1


/-! ### Helper lemmas -/

theorem new_recompose (s ns : Nat) :
    (DurationBreakdown.new s ns).years * YEAR + (DurationBreakdown.new s ns).months * MONTH
        + (DurationBreakdown.new s ns).weeks * WEEK + (DurationBreakdown.new s ns).days * DAY
        + (DurationBreakdown.new s ns).hours * HOUR + (DurationBreakdown.new s ns).minutes * MINUTE
        + (DurationBreakdown.new s ns).seconds = s
    ∧ (DurationBreakdown.new s ns).milliseconds * 1000000
        + (DurationBreakdown.new s ns).microseconds * 1000
        + (DurationBreakdown.new s ns).nanoseconds = ns := by
  unfold DurationBreakdown.new
  norm_num [MINUTE, HOUR, DAY, WEEK, MONTH, YEAR]
  constructor <;> omega

theorem as_times_new (s ns : Nat) (hs : s < U64) (hns : ns < U64) :
    (DurationBreakdown.new s ns).as_times = (s, ns) := by
  obtain ⟨h1, h2⟩ := new_recompose s ns
  unfold DurationBreakdown.as_times
  rw [h1, h2, Nat.mod_eq_of_lt hs, Nat.mod_eq_of_lt hns]

/-- Claim C2 -/
theorem claim_c2_breakdown_roundtrip (s ns : Nat) (hs : s < U64) (hns : ns < 1000000000) :
    (DurationBreakdown.new s ns).as_times = (s, ns)
    ∧ DurationBreakdown.new ((DurationBreakdown.new s ns).as_times).1
        ((DurationBreakdown.new s ns).as_times).2 = DurationBreakdown.new s ns := by
  have h := as_times_new s ns hs (lt_trans hns (by norm_num [U64]))
  refine ⟨h, ?_⟩
  rw [h]

/-- Claim C2 witness -/
theorem claim_c2_breakdown_roundtrip_witness :
    (DurationBreakdown.new 90061 123456789).as_times = (90061, 123456789)
    ∧ DurationBreakdown.new ((DurationBreakdown.new 90061 123456789).as_times).1
        ((DurationBreakdown.new 90061 123456789).as_times).2
      = DurationBreakdown.new 90061 123456789 :=
  claim_c2_breakdown_roundtrip 90061 123456789 (by decide) (by decide)

/-- Claim C7 -/
theorem claim_c7_zero_canonical :
    FancyDuration.format_internal 0 0 true = "0"
    ∧ FancyDuration.format_internal 0 0 false = "0"
    ∧ FancyDuration.parse_to_ns "0" = some (0, 0) := by
  decide

/-- Claim C1 code bug -/
theorem claim_c1_year_roundtrip_bug :
    FancyDuration.format_internal 31536000 0 true = "1y"
    ∧ FancyDuration.format_internal 31536000 0 false = "1y"
    ∧ FancyDuration.parse_to_ns "1y" = some (31104000, 0)
    ∧ (31104000, (0 : Nat)) ≠ (31536000, 0)
    ∧ FancyDuration.format_internal 7776000 0 true = "3m"
    ∧ FancyDuration.parse_to_ns "3m" = some (180, 0)
    ∧ (180, (0 : Nat)) ≠ (7776000, 0) := by
  decide

/-- Claim C8 code bug -/
theorem claim_c8_subsecond_overflow_bug :
    FancyDuration.parse_to_ns "2000ms" = some (0, 2000000000)
    ∧ ¬ 2000000000 < 1000000000 := by
  decide

theorem truncList_length (xs : List Nat) : ∀ (limit : Nat) (st : Bool),
    (truncList limit st xs).length = xs.length := by
  induction xs with
  | nil => intro limit st; rfl
  | cons v rest ih =>
    intro limit st
    unfold truncList
    split <;> simp [ih]

theorem truncList_true_getD (xs : List Nat) : ∀ (limit i : Nat),
    (truncList limit true xs).getD i 0 = if i < limit then xs.getD i 0 else 0 := by
  induction xs with
  | nil => intro limit i; simp [truncList]
  | cons v rest ih =>
    intro limit i
    unfold truncList
    rw [if_pos (Or.inl rfl)]
    cases i with
    | zero =>
      simp only [List.getD_cons_zero]
      split_ifs <;> omega
    | succ j =>
      simp only [List.getD_cons_succ]
      rw [ih]
      split_ifs <;> omega

theorem truncList_false_getD (xs : List Nat) : ∀ (limit i : Nat),
    (truncList limit false xs).getD i 0
      = if i < firstNonzero xs + limit then xs.getD i 0 else 0 := by
  induction xs with
  | nil => intro limit i; simp [truncList, firstNonzero]
  | cons v rest ih =>
    intro limit i
    unfold truncList firstNonzero
    by_cases hv : 0 < v
    · rw [if_pos (Or.inr hv), if_pos hv]
      cases i with
      | zero =>
        simp only [List.getD_cons_zero]
        split_ifs <;> omega
      | succ j =>
        simp only [List.getD_cons_succ]
        rw [truncList_true_getD]
        split_ifs <;> omega
    · rw [if_neg (by simp [hv]), if_neg hv]
      cases i with
      | zero =>
        simp only [List.getD_cons_zero]
        split_ifs <;> omega
      | succ j =>
        simp only [List.getD_cons_succ]
        rw [ih]
        split_ifs <;> omega


theorem truncList_zero (xs : List Nat) : ∀ (st : Bool),
    truncList 0 st xs = List.replicate xs.length 0 := by
  induction xs with
  | nil => intro st; rfl
  | cons v rest ih =>
    intro st
    unfold truncList
    by_cases h : st = true ∨ 0 < v
    · rw [if_pos h]
      simp [ih, List.replicate_succ]
    · rw [if_neg h]
      have hv : v = 0 := by
        rcases Nat.eq_zero_or_pos v with h0 | h0
        · exact h0
        · exact absurd (Or.inr h0) h
      simp [hv, ih, List.replicate_succ]

theorem fieldList_ofFieldList (l : List Nat) (h : l.length = 10) :
    (ofFieldList l).fieldList = l := by
  rcases l with _ | ⟨a0, _ | ⟨a1, _ | ⟨a2, _ | ⟨a3, _ | ⟨a4, _ | ⟨a5, _ | ⟨a6, _ | ⟨a7, _ | ⟨a8, _ | ⟨a9, rest⟩⟩⟩⟩⟩⟩⟩⟩⟩⟩ <;>
    simp only [List.length_cons, List.length_nil] at h <;>
    try omega
  have hrest : rest = [] := List.length_eq_zero.mp (by omega)
  subst hrest
  rfl

theorem truncate_fieldList (b : DurationBreakdown) (limit : Nat) :
    (b.truncate limit).fieldList = truncList limit false b.fieldList := by
  unfold DurationBreakdown.truncate
  apply fieldList_ofFieldList
  rw [truncList_length]
  rfl

/-- Claim C4 -/
theorem claim_c4_truncate_scan (b : DurationBreakdown) (limit i : Nat) :
    ((b.truncate limit).fieldList.getD i 0
        = if i < firstNonzero b.fieldList + limit then b.fieldList.getD i 0 else 0)
    ∧ b.truncate 0 = ⟨0, 0, 0, 0, 0, 0, 0, 0, 0, 0⟩
    ∧ (DurationBreakdown.mk 0 0 0 0 0 0 0 0 0 0).truncate limit
        = ⟨0, 0, 0, 0, 0, 0, 0, 0, 0, 0⟩
    ∧ FancyDuration.parse_to_ns "1h 1m 30us" = some (3660, 30000)
    ∧ FancyDuration.format_internal (FancyDuration.truncatePair (3660, 30000) 3).1
        (FancyDuration.truncatePair (3660, 30000) 3).2 true = "1h 1m" := by
  refine ⟨?_, ?_, ?_, by decide, by decide⟩
  · rw [truncate_fieldList, truncList_false_getD]
  · unfold DurationBreakdown.truncate
    rw [truncList_zero]
    rfl
  · unfold DurationBreakdown.truncate DurationBreakdown.fieldList
    simp [truncList, ofFieldList]

theorem filter_years (b : DurationBreakdown) (f : List DurationPart) :
    (b.filter f).years = if DurationPart.Years ∈ f then b.years else 0 := by
  simp [DurationBreakdown.filter, allParts, zeroPart, apply_ite DurationBreakdown.years]

theorem filter_months (b : DurationBreakdown) (f : List DurationPart) :
    (b.filter f).months = if DurationPart.Months ∈ f then b.months else 0 := by
  simp [DurationBreakdown.filter, allParts, zeroPart, apply_ite DurationBreakdown.months]

theorem filter_weeks (b : DurationBreakdown) (f : List DurationPart) :
    (b.filter f).weeks = if DurationPart.Weeks ∈ f then b.weeks else 0 := by
  simp [DurationBreakdown.filter, allParts, zeroPart, apply_ite DurationBreakdown.weeks]

theorem filter_days (b : DurationBreakdown) (f : List DurationPart) :
    (b.filter f).days = if DurationPart.Days ∈ f then b.days else 0 := by
  simp [DurationBreakdown.filter, allParts, zeroPart, apply_ite DurationBreakdown.days]

theorem filter_hours (b : DurationBreakdown) (f : List DurationPart) :
    (b.filter f).hours = if DurationPart.Hours ∈ f then b.hours else 0 := by
  simp [DurationBreakdown.filter, allParts, zeroPart, apply_ite DurationBreakdown.hours]

theorem filter_minutes (b : DurationBreakdown) (f : List DurationPart) :
    (b.filter f).minutes = if DurationPart.Minutes ∈ f then b.minutes else 0 := by
  simp [DurationBreakdown.filter, allParts, zeroPart, apply_ite DurationBreakdown.minutes]

theorem filter_seconds (b : DurationBreakdown) (f : List DurationPart) :
    (b.filter f).seconds = if DurationPart.Seconds ∈ f then b.seconds else 0 := by
  simp [DurationBreakdown.filter, allParts, zeroPart, apply_ite DurationBreakdown.seconds]

theorem filter_milliseconds (b : DurationBreakdown) (f : List DurationPart) :
    (b.filter f).milliseconds = if DurationPart.Milliseconds ∈ f then b.milliseconds else 0 := by
  simp [DurationBreakdown.filter, allParts, zeroPart, apply_ite DurationBreakdown.milliseconds]

theorem filter_microseconds (b : DurationBreakdown) (f : List DurationPart) :
    (b.filter f).microseconds = if DurationPart.Microseconds ∈ f then b.microseconds else 0 := by
  simp [DurationBreakdown.filter, allParts, zeroPart, apply_ite DurationBreakdown.microseconds]

theorem filter_nanoseconds (b : DurationBreakdown) (f : List DurationPart) :
    (b.filter f).nanoseconds = if DurationPart.Nanoseconds ∈ f then b.nanoseconds else 0 := by
  simp [DurationBreakdown.filter, allParts, zeroPart, apply_ite DurationBreakdown.nanoseconds]

/-- Claim C5 -/
theorem claim_c5_filter_mask (b : DurationBreakdown) (f : List DurationPart) :
    ((b.filter f).years = if DurationPart.Years ∈ f then b.years else 0)
    ∧ ((b.filter f).months = if DurationPart.Months ∈ f then b.months else 0)
    ∧ ((b.filter f).weeks = if DurationPart.Weeks ∈ f then b.weeks else 0)
    ∧ ((b.filter f).days = if DurationPart.Days ∈ f then b.days else 0)
    ∧ ((b.filter f).hours = if DurationPart.Hours ∈ f then b.hours else 0)
    ∧ ((b.filter f).minutes = if DurationPart.Minutes ∈ f then b.minutes else 0)
    ∧ ((b.filter f).seconds = if DurationPart.Seconds ∈ f then b.seconds else 0)
    ∧ ((b.filter f).milliseconds = if DurationPart.Milliseconds ∈ f then b.milliseconds else 0)
    ∧ ((b.filter f).microseconds = if DurationPart.Microseconds ∈ f then b.microseconds else 0)
    ∧ ((b.filter f).nanoseconds = if DurationPart.Nanoseconds ∈ f then b.nanoseconds else 0)
    ∧ (b.filter f).filter f = b.filter f := by
  refine ⟨filter_years b f, filter_months b f, filter_weeks b f, filter_days b f,
    filter_hours b f, filter_minutes b f, filter_seconds b f, filter_milliseconds b f,
    filter_microseconds b f, filter_nanoseconds b f, ?_⟩
  ext <;>
    simp only [filter_years, filter_months, filter_weeks, filter_days, filter_hours,
      filter_minutes, filter_seconds, filter_milliseconds, filter_microseconds,
      filter_nanoseconds] <;>
    split_ifs <;> rfl

/-- Claim C3 -/
theorem claim_c3_parse_token_semantics (sec sub : Nat) (pm : Bool) (ds : List Char)
    (hv : digitsVal ds ≤ 1000000000)
    (hsec : sec ≤ 1000000000000000) (hsub : sub ≤ 1000000000000000) :
    applyToken (sec, sub, pm) (ds, ['s']) = some (sec + digitsVal ds, sub, pm)
    ∧ applyToken (sec, sub, pm) (ds, ['m', 's']) = some (sec, sub + digitsVal ds * 1000000, pm)
    ∧ applyToken (sec, sub, pm) (ds, ['u', 's']) = some (sec, sub + digitsVal ds * 1000, pm)
    ∧ applyToken (sec, sub, pm) (ds, ['n', 's']) = some (sec, sub + digitsVal ds, pm)
    ∧ applyToken (sec, sub, pm) (ds, ['h']) = some (sec + digitsVal ds * 3600, sub, true)
    ∧ applyToken (sec, sub, pm) (ds, ['d']) = some (sec + digitsVal ds * 86400, sub, true)
    ∧ applyToken (sec, sub, pm) (ds, ['w']) = some (sec + digitsVal ds * 604800, sub, true)
    ∧ applyToken (sec, sub, pm) (ds, ['y']) = some (sec + digitsVal ds * (360 * 86400), sub, true)
    ∧ applyToken (sec, sub, pm) (ds, ['m'])
        = some (if pm then (sec + digitsVal ds * (30 * 86400), sub, pm)
            else (sec + digitsVal ds * 60, sub, true))
    ∧ FancyDuration.parse_to_ns "5y2d30m"
        = some (5 * (360 * 86400) + 2 * 86400 + 30 * 60, 0)
    ∧ FancyDuration.parse_to_ns "5y30m2d"
        = some (5 * (360 * 86400) + 30 * (30 * 86400) + 2 * 86400, 0) := by
  have hp : parseU64 ds = some (digitsVal ds) := by
    unfold parseU64
    rw [if_pos (lt_of_le_of_lt hv (by norm_num [U64]))]
  refine ⟨?_, ?_, ?_, ?_, ?_, ?_, ?_, ?_, ?_, by decide, by decide⟩ <;>
    cases pm <;> simp [applyToken, hp, U64] <;> omega

/-- Claim C3 witness -/
theorem claim_c3_parse_token_semantics_witness :
    applyToken (0, 0, false) (['5'], ['s']) = some (0 + digitsVal ['5'], 0, false)
    ∧ applyToken (0, 0, false) (['5'], ['m', 's']) = some (0, 0 + digitsVal ['5'] * 1000000, false)
    ∧ applyToken (0, 0, false) (['5'], ['u', 's']) = some (0, 0 + digitsVal ['5'] * 1000, false)
    ∧ applyToken (0, 0, false) (['5'], ['n', 's']) = some (0, 0 + digitsVal ['5'], false)
    ∧ applyToken (0, 0, false) (['5'], ['h']) = some (0 + digitsVal ['5'] * 3600, 0, true)
    ∧ applyToken (0, 0, false) (['5'], ['d']) = some (0 + digitsVal ['5'] * 86400, 0, true)
    ∧ applyToken (0, 0, false) (['5'], ['w']) = some (0 + digitsVal ['5'] * 604800, 0, true)
    ∧ applyToken (0, 0, false) (['5'], ['y']) = some (0 + digitsVal ['5'] * (360 * 86400), 0, true)
    ∧ applyToken (0, 0, false) (['5'], ['m'])
        = some (if false then (0 + digitsVal ['5'] * (30 * 86400), 0, false)
            else (0 + digitsVal ['5'] * 60, 0, true))
    ∧ FancyDuration.parse_to_ns "5y2d30m"
        = some (5 * (360 * 86400) + 2 * 86400 + 30 * 60, 0)
    ∧ FancyDuration.parse_to_ns "5y30m2d"
        = some (5 * (360 * 86400) + 30 * (30 * 86400) + 2 * 86400, 0) :=
  claim_c3_parse_token_semantics 0 0 false ['5'] (by decide) (by decide) (by decide)

theorem parseU64_eq_none (l : List Char) : parseU64 l = none ↔ U64 ≤ digitsVal l := by
  unfold parseU64
  split_ifs with h <;> simp <;> omega

theorem applyToken_none_iff (st : Nat × Nat × Bool) (t : List Char × List Char) :
    applyToken st t = none ↔ recognizedSuffix t.2 ∧ U64 ≤ digitsVal t.1 := by
  unfold applyToken
  split_ifs with h1 h2 h3 h4 h5 h6 h7 h8 h9 <;>
    simp_all [Option.map_eq_none', parseU64_eq_none, recognizedSuffix]

theorem runTokens_eq_none_iff (ts : List (List Char × List Char)) : ∀ st,
    runTokens st ts = none ↔ ∃ t ∈ ts, recognizedSuffix t.2 ∧ U64 ≤ digitsVal t.1 := by
  induction ts with
  | nil => intro st; simp [runTokens]
  | cons t ts ih =>
    intro st
    unfold runTokens
    cases happ : applyToken st t with
    | none =>
      simp only []
      constructor
      · intro _
        exact ⟨t, List.mem_cons_self t ts, (applyToken_none_iff st t).mp happ⟩
      · intro _
        trivial
    | some st2 =>
      simp only []
      rw [ih st2]
      constructor
      · rintro ⟨u, hu, hbad⟩
        exact ⟨u, List.mem_cons_of_mem t hu, hbad⟩
      · rintro ⟨u, hu, hbad⟩
        rcases List.mem_cons.mp hu with rfl | hu2
        · exfalso
          rw [(applyToken_none_iff st u).mpr hbad] at happ
          cases happ
        · exact ⟨u, hu2, hbad⟩

/-- Claim C6 (amended) -/
theorem claim_c6_parse_error_iff (s : String) :
    (FancyDuration.parse_to_ns s = none
        ↔ ∃ t ∈ scanTokens s.data, recognizedSuffix t.2 ∧ U64 ≤ digitsVal t.1)
    ∧ (scanTokens s.data = [] → FancyDuration.parse_to_ns s = some (0, 0)) := by
  constructor
  · unfold FancyDuration.parse_to_ns
    rw [Option.map_eq_none', runTokens_eq_none_iff]
    simp [List.mem_reverse]
  · intro h
    unfold FancyDuration.parse_to_ns
    rw [h]
    rfl

/-- Claim C6 witness -/
theorem claim_c6_parse_error_iff_witness :
    FancyDuration.parse_to_ns "" = some (0, 0) :=
  (claim_c6_parse_error_iff "").2 (by decide)

/-- Claim C6 counterexample -/
theorem claim_c6_counterexample :
    (∃ t ∈ scanTokens "18446744073709551616q".data, U64 ≤ digitsVal t.1)
    ∧ FancyDuration.parse_to_ns "18446744073709551616q" = some (0, 0) := by
  decide

/-- Claim C10 -/
theorem claim_c10_uppercase_suffix_ignored (st : Nat × Nat × Bool) (ds sfx : List Char)
    (h : ∃ c ∈ sfx, c.isUpper = true) :
    applyToken st (ds, sfx) = some st
    ∧ scanTokens "5S".data = [(['5'], ['S'])]
    ∧ scanTokens "10MS".data = [(['1', '0'], ['M', 'S'])]
    ∧ FancyDuration.parse_to_ns "5S" = some (0, 0)
    ∧ FancyDuration.parse_to_ns "10MS" = some (0, 0) := by
  obtain ⟨c, hc, hup⟩ := h
  have hne : ∀ l : List Char, (∀ d ∈ l, d.isUpper = false) → sfx ≠ l := by
    intro l hl he
    subst he
    exact absurd hup (by simp [hl c hc])
  refine ⟨?_, by decide, by decide, by decide, by decide⟩
  unfold applyToken
  dsimp only
  rw [if_neg (hne _ (by decide)), if_neg (hne _ (by decide)), if_neg (hne _ (by decide)),
    if_neg (hne _ (by decide)), if_neg (hne _ (by decide)), if_neg (hne _ (by decide)),
    if_neg (hne _ (by decide)), if_neg (hne _ (by decide)), if_neg (hne _ (by decide))]

/-- Claim C10 witness -/
theorem claim_c10_uppercase_suffix_ignored_witness :
    applyToken (7, 8, true) (['5'], ['S']) = some (7, 8, true)
    ∧ scanTokens "5S".data = [(['5'], ['S'])]
    ∧ scanTokens "10MS".data = [(['1', '0'], ['M', 'S'])]
    ∧ FancyDuration.parse_to_ns "5S" = some (0, 0)
    ∧ FancyDuration.parse_to_ns "10MS" = some (0, 0) :=
  claim_c10_uppercase_suffix_ignored (7, 8, true) ['5'] ['S'] (by decide)

theorem formatBody_length_pos (b : DurationBreakdown) (pad : Bool)
    (h : b.years > 0 ∨ b.months > 0 ∨ b.weeks > 0 ∨ b.days > 0 ∨ b.hours > 0
      ∨ b.minutes > 0 ∨ b.seconds > 0 ∨ b.milliseconds > 0 ∨ b.microseconds > 0
      ∨ b.nanoseconds > 0) :
    0 < (formatBody b pad).length := by
  have e1 : ("y" : String).length = 1 := rfl
  have e2 : ("m" : String).length = 1 := rfl
  have e3 : ("w" : String).length = 1 := rfl
  have e4 : ("d" : String).length = 1 := rfl
  have e5 : ("h" : String).length = 1 := rfl
  have e6 : ("s" : String).length = 1 := rfl
  have e7 : ("ms" : String).length = 2 := rfl
  have e8 : ("us" : String).length = 2 := rfl
  have e9 : ("ns" : String).length = 2 := rfl
  unfold formatBody
  simp only [String.length_append]
  rcases h with h | h | h | h | h | h | h | h | h | h <;>
    rw [if_pos h] <;>
    simp only [String.length_append] <;>
    omega

/-- Claim C9 -/
theorem claim_c9_format_body_nonempty (s ns : Nat) (pad : Bool) (h : ¬ (s = 0 ∧ ns = 0)) :
    ((DurationBreakdown.new s ns).years > 0 ∨ (DurationBreakdown.new s ns).months > 0
      ∨ (DurationBreakdown.new s ns).weeks > 0 ∨ (DurationBreakdown.new s ns).days > 0
      ∨ (DurationBreakdown.new s ns).hours > 0 ∨ (DurationBreakdown.new s ns).minutes > 0
      ∨ (DurationBreakdown.new s ns).seconds > 0 ∨ (DurationBreakdown.new s ns).milliseconds > 0
      ∨ (DurationBreakdown.new s ns).microseconds > 0
      ∨ (DurationBreakdown.new s ns).nanoseconds > 0)
    ∧ 0 < (formatBody (DurationBreakdown.new s ns) pad).length := by
  have hr := new_recompose s ns
  simp only [MINUTE, HOUR, DAY, WEEK, MONTH, YEAR] at hr
  norm_num at hr
  have hd : (DurationBreakdown.new s ns).years > 0 ∨ (DurationBreakdown.new s ns).months > 0
      ∨ (DurationBreakdown.new s ns).weeks > 0 ∨ (DurationBreakdown.new s ns).days > 0
      ∨ (DurationBreakdown.new s ns).hours > 0 ∨ (DurationBreakdown.new s ns).minutes > 0
      ∨ (DurationBreakdown.new s ns).seconds > 0 ∨ (DurationBreakdown.new s ns).milliseconds > 0
      ∨ (DurationBreakdown.new s ns).microseconds > 0
      ∨ (DurationBreakdown.new s ns).nanoseconds > 0 := by
    by_contra hall
    push_neg at hall
    apply h
    constructor <;> omega
  exact ⟨hd, formatBody_length_pos _ pad hd⟩

/-- Claim C9 witness -/
theorem claim_c9_format_body_nonempty_witness :
    ((DurationBreakdown.new 3600 0).years > 0 ∨ (DurationBreakdown.new 3600 0).months > 0
      ∨ (DurationBreakdown.new 3600 0).weeks > 0 ∨ (DurationBreakdown.new 3600 0).days > 0
      ∨ (DurationBreakdown.new 3600 0).hours > 0 ∨ (DurationBreakdown.new 3600 0).minutes > 0
      ∨ (DurationBreakdown.new 3600 0).seconds > 0 ∨ (DurationBreakdown.new 3600 0).milliseconds > 0
      ∨ (DurationBreakdown.new 3600 0).microseconds > 0
      ∨ (DurationBreakdown.new 3600 0).nanoseconds > 0)
    ∧ 0 < (formatBody (DurationBreakdown.new 3600 0) true).length :=
  claim_c9_format_body_nonempty 3600 0 true (by decide)
